import Mathlib

/-!
Shallow embedding of the VCFShark parameter record (`CParams`), the
registering multithreading queue (`CRegisteringQueue`), and the constant
members of the `CCompressedFile` orchestrator, together with theorems
settling the specification claims about them.

Conventions of the embedding:
* C++ `uint8_t` / `uint32_t` / `uint64_t` values are modelled as `Nat`,
  with an explicit `% 2 ^ w` at the points where the source performs a
  narrowing cast (the only such point is the `(uint8_t)neglect_limit`
  cast in `store_params`).
* C++ `int` values are modelled as `Int` (so that decrementing below
  zero is represented faithfully).
* `std::vector<uint8_t>` and the `std::queue` payload are modelled as
  Lean lists; `push_back` / `q.push` append at the back, `q.front` /
  `q.pop` read and remove at the front.
* Blocking behaviour of `Pop` (the condition-variable wait) is modelled
  by an explicit `blocked` outcome: in a single-threaded view a wait
  whose predicate is false never returns.
-/

namespace VCFShark

/-- Enumeration `work_mode_t` from the parameter header. -/
inductive work_mode_t where
  | none
  | compress
  | decompress
deriving DecidableEq

/-- Enumeration `file_type` from the parameter header. -/
inductive file_type where
  | VCF
  | BCF
deriving DecidableEq

/-- The `CParams` record. String members are modelled as `String`;
numeric members as `Nat` (`bcf_compression_level` is a `char`, stored as
its code point). -/
structure CParams where
  work_mode : work_mode_t
  vcf_file_name : String
  db_file_name : String
  sample_file_name : String
  id_sample : String
  store_sample_header : Bool
  out_type : file_type
  bcf_compression_level : Nat
  extra_variants : Bool
  neglect_limit : Nat
  no_threads : Nat

/-- The default constructor `CParams()`. `init` stands for the
indeterminate pre-body state of the scalar members; the four `string`
members are default-constructed to the empty string before the body
runs. The body is the exact assignment sequence of the source,
including the double assignment to `no_threads` (first 1, then 8). -/
def CParams.construct (init : CParams) : CParams :=
  let p := { init with vcf_file_name := "", db_file_name := "",
                       sample_file_name := "", id_sample := "" }
  let p := { p with work_mode := work_mode_t.none }
  let p := { p with no_threads := 1 }
  let p := { p with store_sample_header := false }
  let p := { p with out_type := file_type.VCF }
  let p := { p with bcf_compression_level := 49 }
  let p := { p with extra_variants := false }
  let p := { p with no_threads := 8 }
  { p with neglect_limit := 10 }

/-- Model of `std::vector::push_back` on a byte vector. -/
def push_back (v : List Nat) (x : Nat) : List Nat :=
  v ++ [x]

/-- Model of `CParams::store_params`: pushes the magic bytes `G` (71), `T` (84),
`S` (83), `1` (49) and then `(uint8_t)neglect_limit`, modelled as
`neglect_limit % 256`. -/
def CParams.store_params (p : CParams) (v_params : List Nat) : List Nat :=
  let v := push_back v_params 71
  let v := push_back v 84
  let v := push_back v 83
  let v := push_back v 49
  push_back v (p.neglect_limit % 256)

/-- Model of `CParams::load_params`: returns the C++ `bool` result together with
the (possibly updated) record. The checks are performed in source
order; `neglect_limit` is assigned only after all checks pass. -/
def CParams.load_params (p : CParams) (v_params : List Nat) : Bool × CParams :=
  if v_params.length ≠ 5 then (false, p)
  else if v_params.getD 0 0 ≠ 71 then (false, p)
  else if v_params.getD 1 0 ≠ 84 then (false, p)
  else if v_params.getD 2 0 ≠ 83 then (false, p)
  else if v_params.getD 3 0 ≠ 49 then (false, p)
  else (true, { p with neglect_limit := v_params.getD 4 0 })

/-- Claim C1: for every `CParams` value, `store_params` appends exactly
5 bytes to the output vector: the four magic bytes `G`, `T`, `S`, `1`
(71, 84, 83, 49) followed by one byte holding `neglect_limit` (its
`uint8_t` cast, `neglect_limit % 256`). -/
theorem CParams.store_params_bytes (p : CParams) (v : List Nat) :
    p.store_params v = v ++ [71, 84, 83, 49, p.neglect_limit % 256] ∧
    (p.store_params v).length = v.length + 5 := by
  constructor
  · simp [CParams.store_params, push_back]
  · simp [CParams.store_params, push_back]

/-- Claim C2: `load_params` returns `true` iff the input has length
exactly 5 and its first four bytes are `G`, `T`, `S`, `1`; whenever it
returns `false`, the `neglect_limit` field is left unchanged. -/
theorem CParams.load_params_spec (p : CParams) (v : List Nat) :
    ((p.load_params v).1 = true ↔
      v.length = 5 ∧ v.getD 0 0 = 71 ∧ v.getD 1 0 = 84 ∧
        v.getD 2 0 = 83 ∧ v.getD 3 0 = 49) ∧
    ((p.load_params v).1 = false →
      (p.load_params v).2.neglect_limit = p.neglect_limit) := by
  unfold CParams.load_params
  split_ifs with h1 h2 h3 h4 h5 <;> simp_all

/-- A concrete `CParams` value (the default-constructed one, starting
from an arbitrarily chosen pre-body state). -/
def pEx : CParams :=
  CParams.construct
    ⟨work_mode_t.none, "", "", "", "", false, file_type.VCF, 49, false, 10, 8⟩

/-- Witness for C2 at concrete inputs. -/
theorem CParams.load_params_spec_witness :
    ((pEx.load_params [71, 84, 83, 49, 7]).1 = true) ∧
    ((pEx.load_params [71, 84, 83]).1 = false ∧
      (pEx.load_params [71, 84, 83]).2.neglect_limit = pEx.neglect_limit) := by
  have hgood := CParams.load_params_spec pEx [71, 84, 83, 49, 7]
  have hbad := CParams.load_params_spec pEx [71, 84, 83]
  refine ⟨hgood.1.mpr (by simp), ?_, hbad.2 (by decide)⟩
  decide

/-- Claim C3: storing into an empty vector and loading back succeeds and
sets `neglect_limit` to the old value mod 256; the round trip restores
`neglect_limit` exactly iff it was below 256. -/
theorem CParams.roundtrip_neglect_limit (p : CParams) :
    (p.load_params (p.store_params [])).1 = true ∧
    (p.load_params (p.store_params [])).2.neglect_limit = p.neglect_limit % 256 ∧
    ((p.load_params (p.store_params [])).2.neglect_limit = p.neglect_limit ↔
      p.neglect_limit < 256) := by
  have hs : p.store_params [] = [71, 84, 83, 49, p.neglect_limit % 256] := by
    simp [CParams.store_params, push_back]
  rw [hs]
  unfold CParams.load_params
  simp only [List.length_cons, List.length_nil, List.getD]
  norm_num

/-- Witness for C3 at a concrete record (one with `neglect_limit` below
256 and one above, exercising both sides of the iff). -/
theorem CParams.roundtrip_neglect_limit_witness :
    ((pEx.load_params (pEx.store_params [])).1 = true ∧
      (pEx.load_params (pEx.store_params [])).2.neglect_limit = pEx.neglect_limit) ∧
    (({ pEx with neglect_limit := 300 } : CParams).load_params
        (({ pEx with neglect_limit := 300 } : CParams).store_params
          [])).2.neglect_limit = 44 := by
  have h1 := CParams.roundtrip_neglect_limit pEx
  have h2 := CParams.roundtrip_neglect_limit { pEx with neglect_limit := 300 }
  refine ⟨⟨h1.1, h1.2.2.mpr (by decide)⟩, ?_⟩
  have h3 := h2.2.1
  simpa using h3

/-- Claim C7: after default construction, `no_threads` is 8 (the second
of the two assignments wins) and `work_mode` is `none`, for every
indeterminate pre-body state. -/
theorem CParams.construct_defaults (init : CParams) :
    (CParams.construct init).no_threads = 8 ∧
    (CParams.construct init).work_mode = work_mode_t.none :=
  ⟨rfl, rfl⟩

/-- State of a `CRegisteringQueue<T>`: the underlying `std::queue`
(front of the list = front of the queue), the `is_completed` flag, the
`int n_producers` counter (an `Int`, so decrements below zero are
represented), and the `uint32_t n_elements` counter. -/
structure CRegisteringQueue (T : Type) where
  q : List T
  is_completed : Bool
  n_producers : Int
  n_elements : Nat

namespace CRegisteringQueue

variable {T : Type}

/-- Model of `Restart`: resets the flags and counters; note that the source does
not clear the underlying queue `q`. -/
def Restart (s : CRegisteringQueue T) (np : Int) : CRegisteringQueue T :=
  { s with is_completed := false, n_producers := np, n_elements := 0 }

/-- The constructor `CRegisteringQueue(_n_producers)`: the queue member
is default-constructed empty and `Restart` initialises the rest. -/
def construct (np : Int) : CRegisteringQueue T :=
  Restart ⟨[], false, 0, 0⟩ np

/-- Model of `IsEmpty`. -/
def IsEmpty (s : CRegisteringQueue T) : Bool :=
  s.n_elements == 0

/-- Model of `IsCompleted`. -/
def IsCompleted (s : CRegisteringQueue T) : Bool :=
  s.n_elements == 0 && s.n_producers == 0

/-- Model of `MarkCompleted`: decrements `n_producers`. -/
def MarkCompleted (s : CRegisteringQueue T) : CRegisteringQueue T :=
  { s with n_producers := s.n_producers - 1 }

/-- Model of `Push`: appends at the back and increments `n_elements`. -/
def Push (s : CRegisteringQueue T) (data : T) : CRegisteringQueue T :=
  { s with q := s.q ++ [data], n_elements := s.n_elements + 1 }

/-- Model of `PushRange`: appends all elements of `data` in order and adds
`data.size()` to `n_elements`. -/
def PushRange (s : CRegisteringQueue T) (data : List T) : CRegisteringQueue T :=
  { s with q := s.q ++ data, n_elements := s.n_elements + data.length }

/-- Outcome of a `Pop` call in the single-threaded view: `blocked`
(the condition-variable predicate `!q.empty() || !n_producers` is false,
so the wait never returns), `done` (the call returns `false`),
`popped x` (the call returns `true` with `data = x`), or `undef`
(`q.front()` on an empty queue — unreachable under the counter
invariant). -/
inductive PopResult (T : Type) where
  | blocked
  | done
  | popped (x : T)
  | undef
deriving DecidableEq

/-- Model of `Pop`: waits until the queue is non-empty or `n_producers` is zero,
then returns `false` if `n_elements` is zero, otherwise removes the
front element and decrements `n_elements`. -/
def Pop (s : CRegisteringQueue T) : PopResult T × CRegisteringQueue T :=
  if s.q.isEmpty = true ∧ s.n_producers ≠ 0 then
    (PopResult.blocked, s)
  else if s.n_elements = 0 then
    (PopResult.done, s)
  else
    match s.q with
    | [] => (PopResult.undef, s)
    | x :: rest =>
        (PopResult.popped x, { s with q := rest, n_elements := s.n_elements - 1 })

/-- Model of `GetSize`. -/
def GetSize (s : CRegisteringQueue T) : Nat :=
  s.n_elements

/-- States reachable from a freshly constructed (i.e. `Restart`ed)
queue by `Push`, `PushRange`, `Pop` and `MarkCompleted`. -/
inductive Reachable : CRegisteringQueue T → Prop where
  | restart (np : Int) : Reachable (construct np)
  | push {s : CRegisteringQueue T} (x : T) :
      Reachable s → Reachable (Push s x)
  | pushRange {s : CRegisteringQueue T} (data : List T) :
      Reachable s → Reachable (PushRange s data)
  | pop {s : CRegisteringQueue T} :
      Reachable s → Reachable (Pop s).2
  | markCompleted {s : CRegisteringQueue T} :
      Reachable s → Reachable (MarkCompleted s)

/-- The `Pop` operation preserves the counter invariant `n_elements = q.length`. -/
lemma Pop_preserves_inv {s : CRegisteringQueue T}
    (h : s.n_elements = s.q.length) :
    (Pop s).2.n_elements = (Pop s).2.q.length := by
  unfold Pop
  split_ifs with h1 h2
  · exact h
  · exact h
  · cases hq : s.q with
    | nil => simp [hq]; simpa [hq] using h
    | cons x rest =>
        simp only [hq]
        simp only [hq, List.length_cons] at h
        simp [h]

/-- Claim C6: in every state reachable from `Restart` via `Push`,
`PushRange`, `Pop` and `MarkCompleted`, the counter `n_elements` equals
the number of elements held in the internal queue `q`. -/
theorem n_elements_eq_q_length {s : CRegisteringQueue T}
    (h : Reachable s) : s.n_elements = s.q.length := by
  induction h with
  | restart np => rfl
  | push x _ ih => simp [Push, ih]
  | pushRange data _ ih => simp [PushRange, ih]
  | pop _ ih => exact Pop_preserves_inv ih
  | markCompleted _ ih => simpa [MarkCompleted] using ih

/-- Witness for C6: a concrete reachable state (two pushes, one pop,
one producer retired) satisfies the invariant. -/
theorem n_elements_eq_q_length_witness :
    ((Pop (MarkCompleted (Push (Push (construct 2) 10) 20))).2.n_elements =
      (Pop (MarkCompleted (Push (Push (construct 2) 10) 20))).2.q.length) := by
  have hreach : Reachable (Pop (MarkCompleted (Push (Push (construct 2) 10) 20))).2 :=
    Reachable.pop (Reachable.markCompleted
      (Reachable.push 20 (Reachable.push 10 (Reachable.restart 2))))
  exact n_elements_eq_q_length hreach

/-- On a non-empty queue with a non-zero counter, `Pop` yields the
front element and removes it, decrementing the counter. -/
lemma Pop_cons {s : CRegisteringQueue T} {x : T} {rest : List T}
    (hq : s.q = x :: rest) (hn : s.n_elements ≠ 0) :
    Pop s = (PopResult.popped x,
      { s with q := rest, n_elements := s.n_elements - 1 }) := by
  unfold Pop
  have hne : ¬(s.q.isEmpty = true ∧ s.n_producers ≠ 0) := by rw [hq]; simp
  rw [if_neg hne, if_neg hn, hq]

/-- Claim C4: under the counter invariant, `Pop` returns `false` exactly
when the queue is empty and `n_producers` has reached zero; whenever the
queue is non-empty, `Pop` returns `true`, yields the front element, and
decrements the element count by one. -/
theorem Pop_spec (s : CRegisteringQueue T)
    (hinv : s.n_elements = s.q.length) :
    ((Pop s).1 = PopResult.done ↔ s.q = [] ∧ s.n_producers = 0) ∧
    (∀ x rest, s.q = x :: rest →
      (Pop s).1 = PopResult.popped x ∧
      (Pop s).2.q = rest ∧
      (Pop s).2.n_elements + 1 = s.n_elements) := by
  cases hq : s.q with
  | nil =>
      have hn : s.n_elements = 0 := by rw [hinv, hq]; rfl
      constructor
      · rcases Classical.em (s.n_producers = 0) with hp | hp
        · have hdone : Pop s = (PopResult.done, s) := by
            unfold Pop
            rw [if_neg (by simp [hq, hp]), if_pos hn]
          simp [hdone, hq, hp]
        · have hblocked : Pop s = (PopResult.blocked, s) := by
            unfold Pop
            rw [if_pos ⟨by simp [hq], hp⟩]
          simp [hblocked, hp]
      · intro x rest hq2
        exact absurd hq2 (by simp)
  | cons x rest =>
      have hn : s.n_elements ≠ 0 := by rw [hinv, hq]; simp
      have hpop := Pop_cons hq hn
      have hval : s.n_elements = rest.length + 1 := by
        rw [hinv, hq]; rfl
      constructor
      · simp [hpop, hq]
      · intro y rest2 hq2
        injection hq2 with h1 h2
        subst h1
        subst h2
        refine ⟨by simp [hpop], by simp [hpop], ?_⟩
        rw [hpop]
        show s.n_elements - 1 + 1 = s.n_elements
        omega

/-- Witness for C4: on the concrete state with queue `[5]`, one
producer and counter 1, `Pop` yields 5 and leaves an empty queue; on
the empty queue with zero producers, `Pop` returns `false`. -/
theorem Pop_spec_witness :
    ((Pop (⟨[5], false, 1, 1⟩ : CRegisteringQueue Nat)).1 = PopResult.popped 5 ∧
      (Pop (⟨[5], false, 1, 1⟩ : CRegisteringQueue Nat)).2.q = [] ∧
      (Pop (⟨[5], false, 1, 1⟩ : CRegisteringQueue Nat)).2.n_elements + 1 = 1) ∧
    (Pop (⟨[], false, 0, 0⟩ : CRegisteringQueue Nat)).1 = PopResult.done := by
  have h1 := Pop_spec (⟨[5], false, 1, 1⟩ : CRegisteringQueue Nat) rfl
  have h2 := Pop_spec (⟨[], false, 0, 0⟩ : CRegisteringQueue Nat) rfl
  exact ⟨h1.2 5 [] rfl, h2.1.mpr ⟨rfl, rfl⟩⟩

/-- A sequence of `Push` calls, in order. -/
def pushAll (s : CRegisteringQueue T) : List T → CRegisteringQueue T
  | [] => s
  | x :: xs => pushAll (Push s x) xs

/-- Repeated `Pop` calls with the given fuel, collecting the yielded
elements in order; stops early when a call does not yield an element. -/
def popAll : Nat → CRegisteringQueue T → List T
  | 0, _ => []
  | fuel + 1, s =>
      match Pop s with
      | (PopResult.popped x, s2) => x :: popAll fuel s2
      | _ => []

lemma pushAll_q (xs : List T) :
    ∀ s : CRegisteringQueue T, (pushAll s xs).q = s.q ++ xs ∧
      (pushAll s xs).n_elements = s.n_elements + xs.length := by
  induction xs with
  | nil => intro s; simp [pushAll]
  | cons x xs ih =>
      intro s
      have h := ih (Push s x)
      simp only [pushAll]
      rw [h.1, h.2]
      simp [Push]
      omega

lemma popAll_drains (l : List T) :
    ∀ s : CRegisteringQueue T, s.q = l → s.n_elements = l.length →
      popAll l.length s = l := by
  induction l with
  | nil => intro s _ _; simp [popAll]
  | cons x rest ih =>
      intro s hq hn
      have hpop : Pop s =
          (PopResult.popped x, { s with q := rest, n_elements := s.n_elements - 1 }) := by
        unfold Pop
        have hne : ¬(s.q.isEmpty = true ∧ s.n_producers ≠ 0) := by
          rw [hq]; simp
        rw [if_neg hne]
        have hz : ¬(s.n_elements = 0) := by rw [hn]; simp
        rw [if_neg hz]
        rw [hq]
      simp only [List.length_cons, popAll, hpop]
      have h2 : popAll rest.length { s with q := rest, n_elements := s.n_elements - 1 } = rest := by
        apply ih
        · rfl
        · simp [hn]
      rw [h2]

/-- Claim C5: the queue is FIFO — starting from a freshly constructed
queue, pushing the elements of `xs` in order and then popping
repeatedly returns exactly `xs` in push order. -/
theorem fifo_order (np : Int) (xs : List T) :
    popAll xs.length (pushAll (construct np) xs) = xs := by
  have h := pushAll_q xs (construct np)
  have hq : (pushAll (construct np) xs).q = xs := by
    rw [h.1]; rfl
  have hn : (pushAll (construct np) xs).n_elements = xs.length := by
    rw [h.2]
    show 0 + xs.length = xs.length
    omega
  exact popAll_drains xs _ hq hn

end CRegisteringQueue

namespace CCompressedFile

/-- Constant `const uint32_t max_buffer_size = 8 << 20`. -/
def max_buffer_size : Nat := (8 <<< 20) % 2 ^ 32

/-- Constant `const uint32_t max_buffer_gt_size = 256 << 20`. -/
def max_buffer_gt_size : Nat := (256 <<< 20) % 2 ^ 32

/-- Constant `const uint32_t max_buffer_db_size = 8 << 20`. -/
def max_buffer_db_size : Nat := (8 <<< 20) % 2 ^ 32

/-- Constant `const size_t pp_compress_flag = 1u << 30`. -/
def pp_compress_flag : Nat := 1 <<< 30

/-- Constant `const context_t context_symbol_flag = 1ull << 60` (`context_t` is a
64-bit unsigned integer). -/
def context_symbol_flag : Nat := (1 <<< 60) % 2 ^ 64

/-- Constant `const context_t context_prefix_flag = 2ull << 60`. -/
def context_prefix_flag : Nat := (2 <<< 60) % 2 ^ 64

/-- Constant `const context_t context_suffix_flag = 3ull << 60`. -/
def context_suffix_flag : Nat := (3 <<< 60) % 2 ^ 64

/-- Constant `const context_t context_large_value1_flag = 4ull << 60`. -/
def context_large_value1_flag : Nat := (4 <<< 60) % 2 ^ 64

/-- Constant `const context_t context_large_value2_flag = 5ull << 60`. -/
def context_large_value2_flag : Nat := (5 <<< 60) % 2 ^ 64

/-- Constant `const context_t context_large_value3_flag = 6ull << 60`. -/
def context_large_value3_flag : Nat := (6 <<< 60) % 2 ^ 64

/-- Claim C8: the buffer flush thresholds are exactly 8 MiB for
ordinary field streams, 256 MiB for the genotype stream, and 8 MiB for
database streams. -/
theorem buffer_thresholds :
    max_buffer_size = 8 * 2 ^ 20 ∧
    max_buffer_gt_size = 256 * 2 ^ 20 ∧
    max_buffer_db_size = 8 * 2 ^ 20 := by
  refine ⟨?_, ?_, ?_⟩ <;> decide

/-- Claim C9: `pp_compress_flag` equals `2 ^ 30`, i.e. exactly 1 GiB;
setting it (by addition, its bit being clear in any size below the
flag) in a 32-bit size word keeps the word below `2 ^ 31` — one
reserved bit — and is invertible precisely for sizes under 1 GiB, so
the representable preprocessed block size is capped at 1 GiB. -/
theorem pp_compress_flag_spec :
    pp_compress_flag = 2 ^ 30 ∧
    pp_compress_flag = 1024 * 1024 * 1024 ∧
    (∀ n : Nat, n < 2 ^ 30 →
      n + pp_compress_flag < 2 ^ 31 ∧
      (n + pp_compress_flag) % 2 ^ 30 = n ∧
      2 ^ 30 ≤ n + pp_compress_flag) := by
  refine ⟨by decide, by decide, ?_⟩
  intro n hn
  have hflag : pp_compress_flag = 2 ^ 30 := by decide
  rw [hflag]
  refine ⟨by omega, ?_, by omega⟩
  omega

/-- Witness for C9 at a concrete size word. -/
theorem pp_compress_flag_spec_witness :
    5 + pp_compress_flag < 2 ^ 31 ∧
    (5 + pp_compress_flag) % 2 ^ 30 = 5 ∧
    2 ^ 30 ≤ 5 + pp_compress_flag :=
  pp_compress_flag_spec.2.2 5 (by decide)

/-- Claim C10: the six context type flags are pairwise distinct 64-bit
constants, each non-zero and with all of its set bits confined to the
top nibble (bits 60 to 63) of the 64-bit context word. -/
theorem context_flags_spec :
    (context_symbol_flag ≠ context_prefix_flag ∧
     context_symbol_flag ≠ context_suffix_flag ∧
     context_symbol_flag ≠ context_large_value1_flag ∧
     context_symbol_flag ≠ context_large_value2_flag ∧
     context_symbol_flag ≠ context_large_value3_flag ∧
     context_prefix_flag ≠ context_suffix_flag ∧
     context_prefix_flag ≠ context_large_value1_flag ∧
     context_prefix_flag ≠ context_large_value2_flag ∧
     context_prefix_flag ≠ context_large_value3_flag ∧
     context_suffix_flag ≠ context_large_value1_flag ∧
     context_suffix_flag ≠ context_large_value2_flag ∧
     context_suffix_flag ≠ context_large_value3_flag ∧
     context_large_value1_flag ≠ context_large_value2_flag ∧
     context_large_value1_flag ≠ context_large_value3_flag ∧
     context_large_value2_flag ≠ context_large_value3_flag) ∧
    (context_symbol_flag ≠ 0 ∧ context_symbol_flag % 2 ^ 60 = 0 ∧
      context_symbol_flag < 2 ^ 64) ∧
    (context_prefix_flag ≠ 0 ∧ context_prefix_flag % 2 ^ 60 = 0 ∧
      context_prefix_flag < 2 ^ 64) ∧
    (context_suffix_flag ≠ 0 ∧ context_suffix_flag % 2 ^ 60 = 0 ∧
      context_suffix_flag < 2 ^ 64) ∧
    (context_large_value1_flag ≠ 0 ∧ context_large_value1_flag % 2 ^ 60 = 0 ∧
      context_large_value1_flag < 2 ^ 64) ∧
    (context_large_value2_flag ≠ 0 ∧ context_large_value2_flag % 2 ^ 60 = 0 ∧
      context_large_value2_flag < 2 ^ 64) ∧
    (context_large_value3_flag ≠ 0 ∧ context_large_value3_flag % 2 ^ 60 = 0 ∧
      context_large_value3_flag < 2 ^ 64) := by
  decide

end CCompressedFile

end VCFShark
